import Mathlib

/-!
Shallow embedding of `src/ds_oc.c`, a kernel module that patches the
`bInterval` field of the interrupt endpoints of a Sony DualSense HID
interface and restores the original values later.

Machine integers are modelled as `Nat` with explicit `% 2^w` where the C
code truncates (the `__u8 bInterval` field receives an `unsigned short`
target).  The kernel collaborators (`usb_lock_device_for_reset`,
`usb_reset_device`, `usb_unlock_device`, `usb_get_dev`, `usb_put_dev`)
are modelled by oracle return values and an explicit event trace / a
reference ledger; `printk` logging is dropped.
-/

namespace DsOc

/-- Capacity of the restore table (`MAX_PATCHED_EPS` in the C source). -/
def MAX_PATCHED_EPS : Nat := 2

/-- Sony vendor id (`DS_VID`). -/
def DS_VID : Nat := 0x054c

/-- DualSense product id (`DS_PID`). -/
def DS_PID : Nat := 0x0ce6

/-- HID interface class (`USB_CLASS_HID`). -/
def USB_CLASS_HID : Nat := 3

/-- USB endpoint descriptor: the fields the module reads or writes.
All three fields are `__u8` in C. -/
structure usb_endpoint_descriptor where
  bEndpointAddress : Nat
  bmAttributes : Nat
  bInterval : Nat
  deriving Repr, DecidableEq

/-- Transfer-type test `usb_endpoint_xfer_int`: low two bits of
`bmAttributes` equal `USB_ENDPOINT_XFER_INT = 3`. -/
def usb_endpoint_xfer_int (e : usb_endpoint_descriptor) : Bool :=
  e.bmAttributes % 4 == 3

/-- Direction test `usb_endpoint_dir_in`: bit 7 of `bEndpointAddress`. -/
def usb_endpoint_dir_in (e : usb_endpoint_descriptor) : Bool :=
  e.bEndpointAddress / 128 % 2 == 1

/-- `usb_endpoint_is_int_in`. -/
def usb_endpoint_is_int_in (e : usb_endpoint_descriptor) : Bool :=
  usb_endpoint_xfer_int e && usb_endpoint_dir_in e

/-- `usb_endpoint_is_int_out`. -/
def usb_endpoint_is_int_out (e : usb_endpoint_descriptor) : Bool :=
  usb_endpoint_xfer_int e && !usb_endpoint_dir_in e

/-- One interface's current alternate setting (`usb_host_interface`):
its class byte and its endpoint descriptor list. -/
structure usb_host_interface where
  bInterfaceClass : Nat
  endpoints : List usb_endpoint_descriptor
  deriving Repr, DecidableEq

/-- Active configuration: the interface array.  An entry `none` models
`interface[i] == NULL` or `cur_altsetting == NULL` (both make the C loop
`continue`). -/
structure usb_host_config where
  interfaces : List (Option usb_host_interface)
  deriving Repr, DecidableEq

/-- A USB device: identity for pointer comparison (`devId`), the vendor
and product ids, and the active configuration (`actconfig`, possibly
`NULL`). -/
structure usb_device where
  devId : Nat
  idVendor : Nat
  idProduct : Nat
  actconfig : Option usb_host_config
  deriving Repr, DecidableEq

/-- `struct ep_restore_info`: endpoint address plus the pre-patch
`bInterval` value. -/
structure ep_restore_info where
  ep_address : Nat
  original_interval : Nat
  deriving Repr, DecidableEq

/-- The module's global state: the managed-device pointer
(`dualsense_device`), the fixed restore table (`restore_infos`, always of
length `MAX_PATCHED_EPS`), its valid-entry count
(`num_actually_patched_eps`), the `rate` parameter
(`configured_interval`), and a ledger of the device references currently
held via `usb_get_dev` (one entry per outstanding reference, by
`devId`). -/
structure SysState where
  dualsense_device : Option usb_device
  restore_infos : List ep_restore_info
  num_actually_patched_eps : Nat
  configured_interval : Nat
  refs : List Nat
  deriving Repr, DecidableEq

/-- Events emitted by the scoped-apply step at the end of
`patch_or_restore_dualsense_endpoints`: the lock attempt with the
oracle's return value, the reset call with its return value, and the
unlock call. -/
inductive ResetEvent where
  | lockAttempt (ret : Int)
  | resetCall (ret : Int)
  | unlockCall
  deriving Repr, DecidableEq

/-- The `if (changed_anything)` tail of the engine: attempt the lock,
reset regardless of the lock result, unlock only when the lock call
returned 0. -/
def reset_step (changed : Bool) (ret_lock ret_reset : Int) : List ResetEvent :=
  if changed then
    [ResetEvent.lockAttempt ret_lock, ResetEvent.resetCall ret_reset] ++
      (if ret_lock = 0 then [ResetEvent.unlockCall] else [])
  else []

/-- State carried through the endpoint loop: the restore table, the
count of committed entries, and the `changed_anything` flag. -/
structure LoopState where
  infos : List ep_restore_info
  num : Nat
  changed : Bool
  deriving Repr, DecidableEq

/-- Body of the per-endpoint loop of
`patch_or_restore_dualsense_endpoints` for one endpoint.  In restore
mode the table is scanned (first `num` entries) for the endpoint's
address; a miss skips the endpoint.  In patch mode, if the table has
room the slot at index `num` is overwritten with the current values
(committed — `num` incremented — only if the interval actually changes);
a full table skips the endpoint.  Writing the `__u8` field truncates the
`unsigned short` target mod 256. -/
def process_endpoint (restore : Bool) (cfg : Nat) (st : LoopState)
    (ep : usb_endpoint_descriptor) : LoopState × usb_endpoint_descriptor :=
  if usb_endpoint_is_int_in ep || usb_endpoint_is_int_out ep then
    if restore then
      match (st.infos.take st.num).find?
          (fun ri => ri.ep_address == ep.bEndpointAddress) with
      | none => (st, ep)
      | some ri =>
        if ep.bInterval ≠ ri.original_interval then
          ({ st with changed := true },
           { ep with bInterval := ri.original_interval % 256 })
        else (st, ep)
    else
      if st.num < MAX_PATCHED_EPS then
        let infos1 := st.infos.set st.num
          ⟨ep.bEndpointAddress, ep.bInterval⟩
        if ep.bInterval ≠ cfg then
          ({ st with infos := infos1, num := st.num + 1, changed := true },
           { ep with bInterval := cfg % 256 })
        else ({ st with infos := infos1 }, ep)
      else (st, ep)
  else (st, ep)

/-- The endpoint loop over one interface's endpoint list. -/
def process_endpoints (restore : Bool) (cfg : Nat) :
    LoopState → List usb_endpoint_descriptor →
    LoopState × List usb_endpoint_descriptor
  | st, [] => (st, [])
  | st, ep :: rest =>
    let r1 := process_endpoint restore cfg st ep
    let r2 := process_endpoints restore cfg r1.1 rest
    (r2.1, r1.2 :: r2.2)

/-- The interface loop: skip `NULL` interfaces, process the first
HID-class interface and `break` (later interfaces untouched). -/
def process_interfaces (restore : Bool) (cfg : Nat) :
    LoopState → List (Option usb_host_interface) →
    LoopState × List (Option usb_host_interface)
  | st, [] => (st, [])
  | st, none :: rest =>
    let r := process_interfaces restore cfg st rest
    (r.1, none :: r.2)
  | st, some itf :: rest =>
    if itf.bInterfaceClass == USB_CLASS_HID then
      let r := process_endpoints restore cfg st itf.endpoints
      (r.1, some { itf with endpoints := r.2 } :: rest)
    else
      let r := process_interfaces restore cfg st rest
      (r.1, some itf :: r.2)

/-- `patch_or_restore_dualsense_endpoints`.  Returns the new module
state, the `changed_anything` flag, and the trace of lock/reset/unlock
events (empty when nothing changed or the device/config was absent).
`ret_lock` and `ret_reset` are the collaborators' return values. -/
def patch_or_restore_dualsense_endpoints (restore : Bool)
    (ret_lock ret_reset : Int) (s : SysState) :
    SysState × Bool × List ResetEvent :=
  match s.dualsense_device with
  | none => (s, false, [])
  | some dev =>
    match dev.actconfig with
    | none => (s, false, [])
    | some cfg =>
      let num0 := if restore then s.num_actually_patched_eps else 0
      let st0 : LoopState := ⟨s.restore_infos, num0, false⟩
      let r := process_interfaces restore s.configured_interval st0
        cfg.interfaces
      let dev1 := { dev with actconfig := some { cfg with interfaces := r.2 } }
      ({ s with dualsense_device := some dev1,
                restore_infos := r.1.infos,
                num_actually_patched_eps := r.1.num },
       r.1.changed,
       reset_step r.1.changed ret_lock ret_reset)

/-- Hotplug actions delivered to the notifier. -/
inductive usb_action where
  | add
  | remove
  deriving Repr, DecidableEq

/-- `on_usb_notify`.  Non-matching devices are ignored.  An add while no
device is managed acquires the device (reference taken) and patches; an
add while one is managed is a no-op.  A remove of the managed device
drops the reference, clears the slot and zeroes the entry count, with no
restore.  Returns the state and the engine's reset-event trace. -/
def on_usb_notify (action : usb_action) (device : usb_device)
    (ret_lock ret_reset : Int) (s : SysState) : SysState × List ResetEvent :=
  if device.idVendor ≠ DS_VID ∨ device.idProduct ≠ DS_PID then (s, [])
  else
    match action with
    | .add =>
      match s.dualsense_device with
      | none =>
        let s1 := { s with dualsense_device := some device,
                           refs := device.devId :: s.refs }
        let r := patch_or_restore_dualsense_endpoints false ret_lock
          ret_reset s1
        (r.1, r.2.2)
      | some _ => (s, [])
    | .remove =>
      match s.dualsense_device with
      | some d =>
        if d.devId = device.devId then
          ({ s with dualsense_device := none,
                    refs := s.refs.erase d.devId,
                    num_actually_patched_eps := 0 }, [])
        else (s, [])
      | none => (s, [])

/-- `check_existing_device_cb`: the `usb_for_each_dev` visitor.  Returns
the stop flag (1 stops the enumeration), the state and the reset
trace. -/
def check_existing_device_cb (device : usb_device)
    (ret_lock ret_reset : Int) (s : SysState) :
    Int × SysState × List ResetEvent :=
  if device.idVendor = DS_VID ∧ device.idProduct = DS_PID then
    match s.dualsense_device with
    | none =>
      let s1 := { s with dualsense_device := some device,
                         refs := device.devId :: s.refs }
      let r := patch_or_restore_dualsense_endpoints false ret_lock
        ret_reset s1
      (1, r.1, r.2.2)
    | some _ => (1, s, [])
  else (0, s, [])

/-- `usb_for_each_dev`: visit the present devices in order, stopping as
soon as the visitor returns nonzero.  Each visit carries the lock/reset
oracle values for a potential patch. -/
def usb_for_each_dev : List (usb_device × Int × Int) → SysState → SysState
  | [], s => s
  | (d, rl, rr) :: rest, s =>
    let r := check_existing_device_cb d rl rr s
    if r.1 = 0 then usb_for_each_dev rest r.2.1 else r.2.1

/-- `ds_oc_init`: clamp the `rate` parameter (0 becomes 1, values above
255 become 255), then enumerate the devices already present. -/
def ds_oc_init (present : List (usb_device × Int × Int)) (s : SysState) :
    SysState :=
  let ci :=
    if s.configured_interval = 0 then 1
    else if s.configured_interval > 255 then 255
    else s.configured_interval
  usb_for_each_dev present { s with configured_interval := ci }

/-- `on_interval_changed` (successful `param_set_ushort` path): store
the parsed `unsigned short` value, clamp it exactly as at init, then
re-patch if a device is managed. -/
def on_interval_changed (raw : Nat) (ret_lock ret_reset : Int)
    (s : SysState) : SysState × List ResetEvent :=
  let s1 := { s with configured_interval := raw % 65536 }
  let ci :=
    if s1.configured_interval = 0 then 1
    else if s1.configured_interval > 255 then 255
    else s1.configured_interval
  let s2 := { s1 with configured_interval := ci }
  match s2.dualsense_device with
  | some _ =>
    let r := patch_or_restore_dualsense_endpoints false ret_lock ret_reset s2
    (r.1, r.2.2)
  | none => (s2, [])

/-- A hotplug or initial-enumeration event, with the lock/reset oracle
values used if the event triggers a patch. -/
inductive HotplugEvent where
  | notifyEvent (action : usb_action) (device : usb_device) (rl rr : Int)
  | enumVisit (device : usb_device) (rl rr : Int)
  deriving Repr

/-- One step of the lifecycle tracker under an event. -/
def step (s : SysState) (e : HotplugEvent) : SysState :=
  match e with
  | .notifyEvent a d rl rr => (on_usb_notify a d rl rr s).1
  | .enumVisit d rl rr => (check_existing_device_cb d rl rr s).2.1

/-- The module's state right after load: no device managed, the
zero-initialized restore table, default rate 1, no references held. -/
def init_state : SysState :=
  { dualsense_device := none,
    restore_infos := [⟨0, 0⟩, ⟨0, 0⟩],
    num_actually_patched_eps := 0,
    configured_interval := 1,
    refs := [] }

/-- Run a sequence of hotplug/enumeration events from the initial
state. -/
def run (evs : List HotplugEvent) : SysState :=
  evs.foldl step init_state

/-- The reference ledger a state should have: empty when no device is
managed, exactly the managed device's id otherwise. -/
def slot_ids (s : SysState) : List Nat :=
  match s.dualsense_device with
  | none => []
  | some d => [d.devId]

/-- The single-ownership invariant: the references held are exactly
those of the managed slot. -/
def RefInv (s : SysState) : Prop :=
  s.refs = slot_ids s

/-- First HID-class interface of an interface list (the one the engine
walks before `break`). -/
def first_hid_interface :
    List (Option usb_host_interface) → Option usb_host_interface
  | [] => none
  | none :: rest => first_hid_interface rest
  | some itf :: rest =>
    if itf.bInterfaceClass == USB_CLASS_HID then some itf
    else first_hid_interface rest

/-- The `bInterval` values of the walked (first HID) interface's
endpoints, in order. -/
def hid_intervals (s : SysState) : List Nat :=
  match s.dualsense_device with
  | none => []
  | some dev =>
    match dev.actconfig with
    | none => []
    | some cfg =>
      match first_hid_interface cfg.interfaces with
      | none => []
      | some itf => itf.endpoints.map (fun ep => ep.bInterval)

/-- A DualSense-shaped device with one HID interface holding one
interrupt-IN endpoint (address `0x84`). -/
def dsDevice1 (v : Nat) : usb_device :=
  { devId := 1, idVendor := DS_VID, idProduct := DS_PID,
    actconfig := some { interfaces := [some {
      bInterfaceClass := USB_CLASS_HID,
      endpoints := [⟨0x84, 3, v⟩] }] } }

/-- A DualSense-shaped device with one HID interface holding one
interrupt-IN (`0x84`) and one interrupt-OUT (`0x03`) endpoint — the
shape the store capacity was chosen for. -/
def dsDevice2 (v1 v2 : Nat) : usb_device :=
  { devId := 1, idVendor := DS_VID, idProduct := DS_PID,
    actconfig := some { interfaces := [some {
      bInterfaceClass := USB_CLASS_HID,
      endpoints := [⟨0x84, 3, v1⟩, ⟨0x03, 3, v2⟩] }] } }

/-- A device whose HID interface has three interrupt endpoints
(`0x84` IN, `0x03` OUT, `0x85` IN) — one more than the store holds. -/
def dsDevice3 (v1 v2 v3 : Nat) : usb_device :=
  { devId := 1, idVendor := DS_VID, idProduct := DS_PID,
    actconfig := some { interfaces := [some {
      bInterfaceClass := USB_CLASS_HID,
      endpoints := [⟨0x84, 3, v1⟩, ⟨0x03, 3, v2⟩, ⟨0x85, 3, v3⟩] }] } }

/-- A managed-state with the given device, a zeroed restore table, and
the given target interval. -/
def baseState (dev : usb_device) (cfg : Nat) : SysState :=
  { dualsense_device := some dev,
    restore_infos := [⟨0, 0⟩, ⟨0, 0⟩],
    num_actually_patched_eps := 0,
    configured_interval := cfg,
    refs := [dev.devId] }

/-! ### Frame lemmas for the restore walk -/

lemma pe_restore_frame (cfg : Nat) (st : LoopState)
    (ep : usb_endpoint_descriptor) :
    (process_endpoint true cfg st ep).1.infos = st.infos ∧
    (process_endpoint true cfg st ep).1.num = st.num := by
  unfold process_endpoint
  split
  · split
    · split
      · exact ⟨rfl, rfl⟩
      · split
        · exact ⟨rfl, rfl⟩
        · exact ⟨rfl, rfl⟩
    · rename_i hfalse
      exact absurd rfl hfalse
  · exact ⟨rfl, rfl⟩

lemma pes_restore_frame (cfg : Nat) :
    ∀ (eps : List usb_endpoint_descriptor) (st : LoopState),
    (process_endpoints true cfg st eps).1.infos = st.infos ∧
    (process_endpoints true cfg st eps).1.num = st.num := by
  intro eps
  induction eps with
  | nil => intro st; simp [process_endpoints]
  | cons ep rest ih =>
    intro st
    simp only [process_endpoints]
    have h1 := pe_restore_frame cfg st ep
    have h2 := ih (process_endpoint true cfg st ep).1
    exact ⟨h2.1.trans h1.1, h2.2.trans h1.2⟩

lemma pis_restore_frame (cfg : Nat) :
    ∀ (itfs : List (Option usb_host_interface)) (st : LoopState),
    (process_interfaces true cfg st itfs).1.infos = st.infos ∧
    (process_interfaces true cfg st itfs).1.num = st.num := by
  intro itfs
  induction itfs with
  | nil => intro st; simp [process_interfaces]
  | cons o rest ih =>
    intro st
    cases o with
    | none => simpa [process_interfaces] using ih st
    | some itf =>
      simp only [process_interfaces]
      split
      · exact pes_restore_frame cfg itf.endpoints st
      · exact ih st

/-- C10: invoking the engine in Restore mode never modifies the Interval
Store — the entry count and the recorded address/original pairs are the
same before and after every Restore invocation. -/
theorem restore_preserves_store (s : SysState) (ret_lock ret_reset : Int) :
    (patch_or_restore_dualsense_endpoints true ret_lock ret_reset s).1.restore_infos
      = s.restore_infos ∧
    (patch_or_restore_dualsense_endpoints true ret_lock ret_reset s).1.num_actually_patched_eps
      = s.num_actually_patched_eps := by
  cases hd : s.dualsense_device with
  | none => simp [patch_or_restore_dualsense_endpoints, hd]
  | some dev =>
    cases hc : dev.actconfig with
    | none => simp [patch_or_restore_dualsense_endpoints, hd, hc]
    | some cfg =>
      have h := pis_restore_frame s.configured_interval cfg.interfaces
        ⟨s.restore_infos, s.num_actually_patched_eps, false⟩
      simpa [patch_or_restore_dualsense_endpoints, hd, hc] using h

/-- C4: whenever the engine reports that some endpoint changed, the
scoped-apply step attempts the reset regardless of the lock result, and
performs the unlock exactly when the lock acquisition succeeded
(returned 0), whatever the reset returned. -/
theorem reset_unlock_iff_lock_success (restore : Bool) (rl rr : Int)
    (s : SysState)
    (h : (patch_or_restore_dualsense_endpoints restore rl rr s).2.1 = true) :
    ResetEvent.resetCall rr ∈
        (patch_or_restore_dualsense_endpoints restore rl rr s).2.2 ∧
    (ResetEvent.unlockCall ∈
        (patch_or_restore_dualsense_endpoints restore rl rr s).2.2 ↔ rl = 0) := by
  cases hd : s.dualsense_device with
  | none => simp [patch_or_restore_dualsense_endpoints, hd] at h
  | some dev =>
    cases hc : dev.actconfig with
    | none => simp [patch_or_restore_dualsense_endpoints, hd, hc] at h
    | some cfg =>
      simp only [patch_or_restore_dualsense_endpoints, hd, hc] at h ⊢
      rw [h]
      unfold reset_step
      by_cases hrl : rl = 0 <;> simp [hrl]

theorem reset_unlock_iff_lock_success_witness :
    ResetEvent.resetCall 0 ∈
        (patch_or_restore_dualsense_endpoints false 0 0
          (baseState (dsDevice2 6 6) 1)).2.2 ∧
    (ResetEvent.unlockCall ∈
        (patch_or_restore_dualsense_endpoints false 0 0
          (baseState (dsDevice2 6 6) 1)).2.2 ↔ (0 : Int) = 0) :=
  reset_unlock_iff_lock_success false 0 0 (baseState (dsDevice2 6 6) 1)
    (by decide)

/-! ### Frame lemmas for fields the engine never touches -/

lemma por_frame (b : Bool) (rl rr : Int) (s : SysState) :
    (patch_or_restore_dualsense_endpoints b rl rr s).1.configured_interval
      = s.configured_interval ∧
    (patch_or_restore_dualsense_endpoints b rl rr s).1.refs = s.refs ∧
    slot_ids (patch_or_restore_dualsense_endpoints b rl rr s).1 = slot_ids s := by
  cases hd : s.dualsense_device with
  | none => simp [patch_or_restore_dualsense_endpoints, hd]
  | some dev =>
    cases hc : dev.actconfig with
    | none => simp [patch_or_restore_dualsense_endpoints, hd, hc]
    | some cfg =>
      simp [patch_or_restore_dualsense_endpoints, hd, hc, slot_ids]

lemma cedc_configured (d : usb_device) (rl rr : Int) (s : SysState) :
    (check_existing_device_cb d rl rr s).2.1.configured_interval
      = s.configured_interval := by
  unfold check_existing_device_cb
  split
  · cases hd : s.dualsense_device with
    | none =>
      simp only [hd]
      exact (por_frame false rl rr _).1
    | some dd => simp [hd]
  · rfl

lemma ufed_configured :
    ∀ (present : List (usb_device × Int × Int)) (s : SysState),
    (usb_for_each_dev present s).configured_interval
      = s.configured_interval := by
  intro present
  induction present with
  | nil => intro s; rfl
  | cons p rest ih =>
    intro s
    obtain ⟨d, rl, rr⟩ := p
    simp only [usb_for_each_dev]
    split
    · exact (ih _).trans (cedc_configured d rl rr s)
    · exact cedc_configured d rl rr s

lemma oic_configured (raw : Nat) (rl rr : Int) (s : SysState) :
    (on_interval_changed raw rl rr s).1.configured_interval =
      (if raw % 65536 = 0 then 1
       else if raw % 65536 > 255 then 255
       else raw % 65536) := by
  unfold on_interval_changed
  cases hd : s.dualsense_device with
  | none => simp [hd]
  | some dev =>
    simp only [hd]
    exact (por_frame false rl rr _).1

/-- C7: the target interval is validated and clamped identically at
module initialization and on a runtime parameter change: raw 0 becomes
1, raw 9999 becomes 255, raw 42 stays 42. -/
theorem rate_clamping (s : SysState) (rl rr : Int)
    (present : List (usb_device × Int × Int)) :
    (on_interval_changed 0 rl rr s).1.configured_interval = 1 ∧
    (on_interval_changed 9999 rl rr s).1.configured_interval = 255 ∧
    (on_interval_changed 42 rl rr s).1.configured_interval = 42 ∧
    (ds_oc_init present { s with configured_interval := 0 }).configured_interval = 1 ∧
    (ds_oc_init present { s with configured_interval := 9999 }).configured_interval = 255 ∧
    (ds_oc_init present { s with configured_interval := 42 }).configured_interval = 42 := by
  refine ⟨?_, ?_, ?_, ?_, ?_, ?_⟩
  · rw [oic_configured]; norm_num
  · rw [oic_configured]; norm_num
  · rw [oic_configured]; norm_num
  · unfold ds_oc_init; rw [ufed_configured]; norm_num
  · unfold ds_oc_init; rw [ufed_configured]; norm_num
  · unfold ds_oc_init; rw [ufed_configured]; norm_num

/-- C8: a remove event for the currently managed device releases the
ownership reference, clears the slot and zeroes the Interval Store's
entry count, and emits no engine events — restore is not invoked, no
endpoint interval is written and no reset is performed. -/
theorem remove_releases_without_restore (s : SysState) (dev d : usb_device)
    (rl rr : Int) (hs : s.dualsense_device = some d)
    (hdid : d.devId = dev.devId) (hv : dev.idVendor = DS_VID)
    (hp : dev.idProduct = DS_PID) :
    on_usb_notify .remove dev rl rr s =
      ({ s with dualsense_device := none,
                refs := s.refs.erase d.devId,
                num_actually_patched_eps := 0 }, []) := by
  simp [on_usb_notify, hv, hp, hs, hdid]

theorem remove_releases_without_restore_witness :
    on_usb_notify .remove (dsDevice2 6 6) 0 0 (baseState (dsDevice2 6 6) 1) =
      ({ baseState (dsDevice2 6 6) 1 with
           dualsense_device := none,
           refs := (baseState (dsDevice2 6 6) 1).refs.erase (dsDevice2 6 6).devId,
           num_actually_patched_eps := 0 }, []) :=
  remove_releases_without_restore (baseState (dsDevice2 6 6) 1)
    (dsDevice2 6 6) (dsDevice2 6 6) 0 0 rfl rfl rfl rfl

/-! ### The single-device invariant -/

lemma refs_of_refinv_none (s : SysState) (h : RefInv s)
    (hd : s.dualsense_device = none) : s.refs = [] := by
  have h2 := h
  unfold RefInv at h2
  rw [h2]
  simp [slot_ids, hd]

lemma refs_of_refinv_some (s : SysState) (dd : usb_device) (h : RefInv s)
    (hd : s.dualsense_device = some dd) : s.refs = [dd.devId] := by
  have h2 := h
  unfold RefInv at h2
  rw [h2]
  simp [slot_ids, hd]

lemma step_refinv (s : SysState) (e : HotplugEvent) (h : RefInv s) :
    RefInv (step s e) := by
  cases e with
  | notifyEvent a d rl rr =>
    cases a with
    | add =>
      simp only [step, on_usb_notify]
      by_cases hm : d.idVendor ≠ DS_VID ∨ d.idProduct ≠ DS_PID
      · rw [if_pos hm]; exact h
      · rw [if_neg hm]
        cases hd : s.dualsense_device with
        | none =>
          simp only [hd]
          have hf := por_frame false rl rr
            { s with dualsense_device := some d, refs := d.devId :: s.refs }
          unfold RefInv
          rw [hf.2.1, hf.2.2]
          have hr := refs_of_refinv_none s h hd
          simp [slot_ids, hr]
        | some dd => simp only [hd]; exact h
    | remove =>
      simp only [step, on_usb_notify]
      by_cases hm : d.idVendor ≠ DS_VID ∨ d.idProduct ≠ DS_PID
      · rw [if_pos hm]; exact h
      · rw [if_neg hm]
        cases hd : s.dualsense_device with
        | none => simp only [hd]; exact h
        | some dd =>
          simp only [hd]
          by_cases hdid : dd.devId = d.devId
          · rw [if_pos hdid]
            have hr := refs_of_refinv_some s dd h hd
            unfold RefInv
            simp [slot_ids, hr]
          · rw [if_neg hdid]; exact h
  | enumVisit d rl rr =>
    simp only [step, check_existing_device_cb]
    by_cases hm : d.idVendor = DS_VID ∧ d.idProduct = DS_PID
    · rw [if_pos hm]
      cases hd : s.dualsense_device with
      | none =>
        simp only [hd]
        have hf := por_frame false rl rr
          { s with dualsense_device := some d, refs := d.devId :: s.refs }
        unfold RefInv
        rw [hf.2.1, hf.2.2]
        have hr := refs_of_refinv_none s h hd
        simp [slot_ids, hr]
      | some dd => simp only [hd]; exact h
    · rw [if_neg hm]; exact h

lemma run_refinv :
    ∀ (evs : List HotplugEvent) (s : SysState),
    RefInv s → RefInv (List.foldl step s evs) := by
  intro evs
  induction evs with
  | nil => intro s h; exact h
  | cons e rest ih => intro s h; exact ih (step s e) (step_refinv s e h)

/-- C3: across every sequence of hotplug add/remove events and
initial-enumeration visits, the tracker holds at most one device
reference, and an add event or an enumeration match arriving while a
device is already managed leaves the state unchanged (no
acquisition). -/
theorem at_most_one_device (evs : List HotplugEvent) (d : usb_device)
    (rl rr : Int) :
    (run evs).refs.length ≤ 1 ∧
    ((run evs).dualsense_device ≠ none →
      (on_usb_notify .add d rl rr (run evs)).1 = run evs ∧
      (check_existing_device_cb d rl rr (run evs)).2.1 = run evs) := by
  have hinv : RefInv (run evs) := run_refinv evs init_state rfl
  constructor
  · rw [hinv]
    unfold slot_ids
    cases (run evs).dualsense_device with
    | none => simp
    | some dd => simp
  · intro hne
    cases hslot : (run evs).dualsense_device with
    | none => exact absurd hslot hne
    | some dd =>
      constructor
      · simp only [on_usb_notify]
        by_cases hm : d.idVendor ≠ DS_VID ∨ d.idProduct ≠ DS_PID
        · rw [if_pos hm]
        · rw [if_neg hm]
          simp only [hslot]
      · simp only [check_existing_device_cb]
        by_cases hm : d.idVendor = DS_VID ∧ d.idProduct = DS_PID
        · rw [if_pos hm]
          simp only [hslot]
        · rw [if_neg hm]

theorem at_most_one_device_witness :
    (run [HotplugEvent.notifyEvent .add (dsDevice2 6 6) 0 0]).dualsense_device
        ≠ none ∧
    (on_usb_notify .add (dsDevice2 6 6) 0 0
        (run [HotplugEvent.notifyEvent .add (dsDevice2 6 6) 0 0])).1 =
      run [HotplugEvent.notifyEvent .add (dsDevice2 6 6) 0 0] :=
  ⟨by decide,
   ((at_most_one_device [HotplugEvent.notifyEvent .add (dsDevice2 6 6) 0 0]
      (dsDevice2 6 6) 0 0).2 (by decide)).1⟩

/-! ### Patch when every endpoint is already at the target -/

/-- True when every interrupt endpoint of the interface the engine walks
(the first HID interface) already holds the configured target
interval. -/
def all_hid_eps_at_target (s : SysState) : Bool :=
  match s.dualsense_device with
  | none => true
  | some dev =>
    match dev.actconfig with
    | none => true
    | some cfg =>
      match first_hid_interface cfg.interfaces with
      | none => true
      | some itf =>
        itf.endpoints.all fun ep =>
          !(usb_endpoint_is_int_in ep || usb_endpoint_is_int_out ep) ||
            ep.bInterval == s.configured_interval

lemma pe_patch_fixed (cfg : Nat) (st : LoopState)
    (ep : usb_endpoint_descriptor)
    (h : (usb_endpoint_is_int_in ep || usb_endpoint_is_int_out ep) = true →
      ep.bInterval = cfg) :
    (process_endpoint false cfg st ep).2 = ep ∧
    (process_endpoint false cfg st ep).1.changed = st.changed := by
  unfold process_endpoint
  split
  · rename_i hint
    have hbi := h hint
    split
    · rename_i hrt; exact absurd hrt (by simp)
    · split
      · split
        · rename_i hne; exact absurd hbi hne
        · exact ⟨rfl, rfl⟩
      · exact ⟨rfl, rfl⟩
  · exact ⟨rfl, rfl⟩

lemma pes_patch_fixed (cfg : Nat) :
    ∀ (eps : List usb_endpoint_descriptor) (st : LoopState),
    (∀ ep ∈ eps,
      (usb_endpoint_is_int_in ep || usb_endpoint_is_int_out ep) = true →
      ep.bInterval = cfg) →
    (process_endpoints false cfg st eps).2 = eps ∧
    (process_endpoints false cfg st eps).1.changed = st.changed := by
  intro eps
  induction eps with
  | nil => intro st h; exact ⟨rfl, rfl⟩
  | cons ep rest ih =>
    intro st h
    simp only [process_endpoints]
    have h1 := pe_patch_fixed cfg st ep (h ep (by simp))
    have h2 := ih (process_endpoint false cfg st ep).1
      (fun e he => h e (by simp [he]))
    exact ⟨by rw [h2.1, h1.1], h2.2.trans h1.2⟩

lemma pis_patch_fixed (cfg : Nat) :
    ∀ (itfs : List (Option usb_host_interface)) (st : LoopState),
    (∀ itf, first_hid_interface itfs = some itf →
      ∀ ep ∈ itf.endpoints,
      (usb_endpoint_is_int_in ep || usb_endpoint_is_int_out ep) = true →
      ep.bInterval = cfg) →
    (process_interfaces false cfg st itfs).2 = itfs ∧
    (process_interfaces false cfg st itfs).1.changed = st.changed := by
  intro itfs
  induction itfs with
  | nil => intro st h; exact ⟨rfl, rfl⟩
  | cons o rest ih =>
    intro st h
    cases o with
    | none =>
      have h2 := ih st
        (fun itf hi => h itf (by simpa [first_hid_interface] using hi))
      simp only [process_interfaces]
      exact ⟨by rw [h2.1], h2.2⟩
    | some itf =>
      simp only [process_interfaces]
      split
      · rename_i hhid
        have hh := h itf (by simp [first_hid_interface, hhid])
        have he := pes_patch_fixed cfg itf.endpoints st hh
        exact ⟨by rw [he.1], he.2⟩
      · rename_i hhid
        have h2 := ih st
          (fun i hi => h i (by simpa [first_hid_interface, hhid] using hi))
        exact ⟨by rw [h2.1], h2.2⟩

/-- C6: if Patch is invoked while every interrupt endpoint of the walked
HID interface already holds the configured target interval, then no
endpoint descriptor is modified, the changed flag is false, and no
lock/reset/unlock operation is performed. -/
theorem patch_noop_when_at_target (s : SysState) (rl rr : Int)
    (h : all_hid_eps_at_target s = true) :
    (patch_or_restore_dualsense_endpoints false rl rr s).1.dualsense_device
      = s.dualsense_device ∧
    (patch_or_restore_dualsense_endpoints false rl rr s).2.1 = false ∧
    (patch_or_restore_dualsense_endpoints false rl rr s).2.2 = [] := by
  cases hd : s.dualsense_device with
  | none => simp [patch_or_restore_dualsense_endpoints, hd]
  | some dev =>
    obtain ⟨did, dv, dp, dac⟩ := dev
    cases hc : dac with
    | none => simp [patch_or_restore_dualsense_endpoints, hd, hc]
    | some cfg =>
      obtain ⟨itfs⟩ := cfg
      have hfix := pis_patch_fixed s.configured_interval itfs
        ⟨s.restore_infos, 0, false⟩ ?hyp
      case hyp =>
        intro itf hitf ep hep hint
        simp only [all_hid_eps_at_target, hd, hc, hitf] at h
        have hall := List.all_eq_true.mp h ep hep
        simpa [hint] using hall
      rw [hc] at hd
      simp only [patch_or_restore_dualsense_endpoints, hd,
        if_neg Bool.false_ne_true]
      refine ⟨?_, hfix.2, ?_⟩
      · rw [hfix.1]
      · rw [hfix.2]; rfl

theorem patch_noop_when_at_target_witness :
    all_hid_eps_at_target (baseState (dsDevice2 1 1) 1) = true ∧
    ((patch_or_restore_dualsense_endpoints false 0 0
        (baseState (dsDevice2 1 1) 1)).1.dualsense_device
      = (baseState (dsDevice2 1 1) 1).dualsense_device ∧
    (patch_or_restore_dualsense_endpoints false 0 0
        (baseState (dsDevice2 1 1) 1)).2.1 = false ∧
    (patch_or_restore_dualsense_endpoints false 0 0
        (baseState (dsDevice2 1 1) 1)).2.2 = []) :=
  ⟨by decide, patch_noop_when_at_target (baseState (dsDevice2 1 1) 1) 0 0
    (by decide)⟩

/-! ### Patch/restore round trip (C1) -/

/-- C1 counterexample: with both endpoint intervals 6 and target 1,
Patch then Restore puts the intervals back to 6 — but it does NOT clear
the record: the entry count is still 2 and both address/original pairs
are still in the Interval Store, contradicting the claim that Restore
clears the record. -/
theorem restore_clears_record_cex :
    hid_intervals (patch_or_restore_dualsense_endpoints true 0 0
        (patch_or_restore_dualsense_endpoints false 0 0
          (baseState (dsDevice2 6 6) 1)).1).1 = [6, 6] ∧
    (patch_or_restore_dualsense_endpoints true 0 0
        (patch_or_restore_dualsense_endpoints false 0 0
          (baseState (dsDevice2 6 6) 1)).1).1.num_actually_patched_eps = 2 ∧
    (patch_or_restore_dualsense_endpoints true 0 0
        (patch_or_restore_dualsense_endpoints false 0 0
          (baseState (dsDevice2 6 6) 1)).1).1.restore_infos
      = [⟨0x84, 6⟩, ⟨0x03, 6⟩] := by decide

/-- C1 (amended): for the DualSense-shaped interface (one interrupt-IN,
one interrupt-OUT endpoint) with original intervals V1, V2 and target T
(both different from T), Patch sets both intervals to T and records the
originals; Restore afterward sets them back to V1, V2 but leaves the
record in place (count and entries unchanged); a second consecutive
Restore is nevertheless a complete no-op (state unchanged, changed flag
false, no lock/reset events), because every interval already equals its
recorded original. -/
theorem patch_restore_roundtrip_amended (V1 V2 T : Nat)
    (h1 : V1 ≠ T) (h2 : V2 ≠ T) (hv1 : V1 < 256) (hv2 : V2 < 256)
    (hT : T < 256) (rl1 rr1 rl2 rr2 rl3 rr3 : Int) :
    hid_intervals (patch_or_restore_dualsense_endpoints false rl1 rr1
        (baseState (dsDevice2 V1 V2) T)).1 = [T, T] ∧
    (patch_or_restore_dualsense_endpoints false rl1 rr1
        (baseState (dsDevice2 V1 V2) T)).1.restore_infos
      = [⟨0x84, V1⟩, ⟨0x03, V2⟩] ∧
    (patch_or_restore_dualsense_endpoints false rl1 rr1
        (baseState (dsDevice2 V1 V2) T)).1.num_actually_patched_eps = 2 ∧
    hid_intervals (patch_or_restore_dualsense_endpoints true rl2 rr2
        (patch_or_restore_dualsense_endpoints false rl1 rr1
          (baseState (dsDevice2 V1 V2) T)).1).1 = [V1, V2] ∧
    (patch_or_restore_dualsense_endpoints true rl2 rr2
        (patch_or_restore_dualsense_endpoints false rl1 rr1
          (baseState (dsDevice2 V1 V2) T)).1).1.restore_infos
      = [⟨0x84, V1⟩, ⟨0x03, V2⟩] ∧
    (patch_or_restore_dualsense_endpoints true rl2 rr2
        (patch_or_restore_dualsense_endpoints false rl1 rr1
          (baseState (dsDevice2 V1 V2) T)).1).1.num_actually_patched_eps = 2 ∧
    (patch_or_restore_dualsense_endpoints true rl3 rr3
        (patch_or_restore_dualsense_endpoints true rl2 rr2
          (patch_or_restore_dualsense_endpoints false rl1 rr1
            (baseState (dsDevice2 V1 V2) T)).1).1).1
      = (patch_or_restore_dualsense_endpoints true rl2 rr2
          (patch_or_restore_dualsense_endpoints false rl1 rr1
            (baseState (dsDevice2 V1 V2) T)).1).1 ∧
    (patch_or_restore_dualsense_endpoints true rl3 rr3
        (patch_or_restore_dualsense_endpoints true rl2 rr2
          (patch_or_restore_dualsense_endpoints false rl1 rr1
            (baseState (dsDevice2 V1 V2) T)).1).1).2.1 = false ∧
    (patch_or_restore_dualsense_endpoints true rl3 rr3
        (patch_or_restore_dualsense_endpoints true rl2 rr2
          (patch_or_restore_dualsense_endpoints false rl1 rr1
            (baseState (dsDevice2 V1 V2) T)).1).1).2.2 = [] := by
  simp [patch_or_restore_dualsense_endpoints, baseState, dsDevice2,
    process_interfaces, process_endpoints, process_endpoint,
    usb_endpoint_is_int_in, usb_endpoint_is_int_out, usb_endpoint_xfer_int,
    usb_endpoint_dir_in, MAX_PATCHED_EPS, USB_CLASS_HID, hid_intervals,
    first_hid_interface, List.set, List.find?, reset_step,
    h1, h2, Ne.symm h1, Ne.symm h2,
    Nat.mod_eq_of_lt hT, Nat.mod_eq_of_lt hv1, Nat.mod_eq_of_lt hv2]

theorem patch_restore_roundtrip_amended_witness :
    (6 : Nat) ≠ 1 ∧ (6 : Nat) < 256 ∧ (1 : Nat) < 256 ∧
    hid_intervals (patch_or_restore_dualsense_endpoints false 0 0
        (baseState (dsDevice2 6 6) 1)).1 = [1, 1] :=
  ⟨by decide, by decide, by decide,
   (patch_restore_roundtrip_amended 6 6 1 (by decide) (by decide)
      (by decide) (by decide) (by decide) 0 0 0 0 0 0).1⟩

/-- C2: starting from pristine interval V, Patch with target T1 and then
a runtime rate change to T2 (which re-patches, with no restore in
between) leaves the Interval Store holding T1 — not V — as the recorded
original, so a subsequent Restore sets the interval to T1. -/
theorem repatch_rebaselines (V T1 T2 : Nat) (h1 : V ≠ T1) (h2 : T1 ≠ T2)
    (hv : V < 256) (ht1 : T1 < 256) (ht2 : T2 < 256) (hpos : 0 < T2)
    (rl1 rr1 rl2 rr2 rl3 rr3 : Int) :
    (on_interval_changed T2 rl2 rr2
        (patch_or_restore_dualsense_endpoints false rl1 rr1
          (baseState (dsDevice1 V) T1)).1).1.restore_infos
      = [⟨0x84, T1⟩, ⟨0, 0⟩] ∧
    (on_interval_changed T2 rl2 rr2
        (patch_or_restore_dualsense_endpoints false rl1 rr1
          (baseState (dsDevice1 V) T1)).1).1.num_actually_patched_eps = 1 ∧
    hid_intervals (patch_or_restore_dualsense_endpoints true rl3 rr3
        (on_interval_changed T2 rl2 rr2
          (patch_or_restore_dualsense_endpoints false rl1 rr1
            (baseState (dsDevice1 V) T1)).1).1).1 = [T1] := by
  have ht2b : T2 < 65536 := lt_trans ht2 (by norm_num)
  have hne0 : T2 ≠ 0 := Nat.pos_iff_ne_zero.mp hpos
  have hle : ¬ (255 < T2) := Nat.not_lt.mpr (Nat.lt_succ_iff.mp ht2)
  simp [patch_or_restore_dualsense_endpoints, on_interval_changed,
    baseState, dsDevice1, process_interfaces, process_endpoints,
    process_endpoint, usb_endpoint_is_int_in, usb_endpoint_is_int_out,
    usb_endpoint_xfer_int, usb_endpoint_dir_in, MAX_PATCHED_EPS,
    USB_CLASS_HID, hid_intervals, first_hid_interface, List.set,
    List.find?, reset_step, h1, h2, Ne.symm h1, Ne.symm h2, hne0, hle,
    Nat.mod_eq_of_lt ht2b, Nat.mod_eq_of_lt hv, Nat.mod_eq_of_lt ht1,
    Nat.mod_eq_of_lt ht2]

theorem repatch_rebaselines_witness :
    (6 : Nat) ≠ 1 ∧ (1 : Nat) ≠ 2 ∧
    (on_interval_changed 2 0 0
        (patch_or_restore_dualsense_endpoints false 0 0
          (baseState (dsDevice1 6) 1)).1).1.restore_infos
      = [⟨0x84, 1⟩, ⟨0, 0⟩] :=
  ⟨by decide, by decide,
   (repatch_rebaselines 6 1 2 (by decide) (by decide) (by decide)
      (by decide) (by decide) (by decide) 0 0 0 0 0 0).1⟩

/-- C5: with store capacity 2 and three qualifying interrupt endpoints
(all with intervals different from the target), Patch changes only the
first two, leaves the third at its original interval with no recorded
entry, and a subsequent Restore leaves the third endpoint unmodified. -/
theorem capacity_boundary (V1 V2 V3 T : Nat)
    (h1 : V1 ≠ T) (h2 : V2 ≠ T) (h3 : V3 ≠ T)
    (hv1 : V1 < 256) (hv2 : V2 < 256) (hT : T < 256)
    (rl1 rr1 rl2 rr2 : Int) :
    hid_intervals (patch_or_restore_dualsense_endpoints false rl1 rr1
        (baseState (dsDevice3 V1 V2 V3) T)).1 = [T, T, V3] ∧
    (patch_or_restore_dualsense_endpoints false rl1 rr1
        (baseState (dsDevice3 V1 V2 V3) T)).1.num_actually_patched_eps = 2 ∧
    ((patch_or_restore_dualsense_endpoints false rl1 rr1
        (baseState (dsDevice3 V1 V2 V3) T)).1.restore_infos.take
      (patch_or_restore_dualsense_endpoints false rl1 rr1
        (baseState (dsDevice3 V1 V2 V3) T)).1.num_actually_patched_eps).find?
      (fun ri => ri.ep_address == 0x85) = none ∧
    hid_intervals (patch_or_restore_dualsense_endpoints true rl2 rr2
        (patch_or_restore_dualsense_endpoints false rl1 rr1
          (baseState (dsDevice3 V1 V2 V3) T)).1).1 = [V1, V2, V3] := by
  simp [patch_or_restore_dualsense_endpoints, baseState, dsDevice3,
    process_interfaces, process_endpoints, process_endpoint,
    usb_endpoint_is_int_in, usb_endpoint_is_int_out, usb_endpoint_xfer_int,
    usb_endpoint_dir_in, MAX_PATCHED_EPS, USB_CLASS_HID, hid_intervals,
    first_hid_interface, List.set, List.find?, reset_step,
    h1, h2, h3, Ne.symm h1, Ne.symm h2, Ne.symm h3,
    Nat.mod_eq_of_lt hT, Nat.mod_eq_of_lt hv1, Nat.mod_eq_of_lt hv2]

theorem capacity_boundary_witness :
    (6 : Nat) ≠ 1 ∧
    hid_intervals (patch_or_restore_dualsense_endpoints false 0 0
        (baseState (dsDevice3 6 6 6) 1)).1 = [1, 1, 6] :=
  ⟨by decide,
   (capacity_boundary 6 6 6 1 (by decide) (by decide) (by decide)
      (by decide) (by decide) (by decide) 0 0 0 0).1⟩

/-- C9: an interrupt endpoint whose interval already equals the target
is not committed to the Interval Store during Patch (the entry count is
not incremented for it, and the scan over the committed entries does not
find its address), so a subsequent Restore skips it even though spare
capacity existed when it was visited; here the first endpoint already
sits at T while the second is patched from V2 to T and restored. -/
theorem equal_interval_not_committed (V2 T : Nat) (h2 : V2 ≠ T)
    (hv2 : V2 < 256) (hT : T < 256) (rl1 rr1 rl2 rr2 : Int) :
    (patch_or_restore_dualsense_endpoints false rl1 rr1
        (baseState (dsDevice2 T V2) T)).1.num_actually_patched_eps = 1 ∧
    (patch_or_restore_dualsense_endpoints false rl1 rr1
        (baseState (dsDevice2 T V2) T)).1.restore_infos
      = [⟨0x03, V2⟩, ⟨0, 0⟩] ∧
    ((patch_or_restore_dualsense_endpoints false rl1 rr1
        (baseState (dsDevice2 T V2) T)).1.restore_infos.take
      (patch_or_restore_dualsense_endpoints false rl1 rr1
        (baseState (dsDevice2 T V2) T)).1.num_actually_patched_eps).find?
      (fun ri => ri.ep_address == 0x84) = none ∧
    hid_intervals (patch_or_restore_dualsense_endpoints false rl1 rr1
        (baseState (dsDevice2 T V2) T)).1 = [T, T] ∧
    hid_intervals (patch_or_restore_dualsense_endpoints true rl2 rr2
        (patch_or_restore_dualsense_endpoints false rl1 rr1
          (baseState (dsDevice2 T V2) T)).1).1 = [T, V2] := by
  simp [patch_or_restore_dualsense_endpoints, baseState, dsDevice2,
    process_interfaces, process_endpoints, process_endpoint,
    usb_endpoint_is_int_in, usb_endpoint_is_int_out, usb_endpoint_xfer_int,
    usb_endpoint_dir_in, MAX_PATCHED_EPS, USB_CLASS_HID, hid_intervals,
    first_hid_interface, List.set, List.find?, reset_step,
    h2, Ne.symm h2, Nat.mod_eq_of_lt hT, Nat.mod_eq_of_lt hv2]

theorem equal_interval_not_committed_witness :
    (6 : Nat) ≠ 1 ∧
    (patch_or_restore_dualsense_endpoints false 0 0
        (baseState (dsDevice2 1 6) 1)).1.num_actually_patched_eps = 1 :=
  ⟨by decide,
   (equal_interval_not_committed 6 1 (by decide) (by decide) (by decide)
      0 0 0 0).1⟩

end DsOc
